import Mathlib

/-!
Verification of the Enhanced Building Materials Search API (`src/app.py`).

The program keeps a static knowledge base `ENHANCED_KNOWLEDGE_BASE`
(a Python dict of three query keys, each mapping to a fixed list of
product records), a matching function `find_best_match`, and a Flask
handler `search` for `POST /api/search`.  We embed the data and the two
functions shallowly: Python dicts of records become a `Record`
structure, the dict of lists becomes Lean constants, and the handler
becomes a total function returning `Except` to model the 400 error
branch.  Python string operations used by the code (`str.lower`,
`in` substring test, `str.split`, `str.strip`, `re.search(r'(\d+)mm')`)
are modelled by executable Lean functions below.
-/

/-- A product record of the knowledge base (`src/app.py`, the dict
literals inside `ENHANCED_KNOWLEDGE_BASE`).  Fields present in every
record are plain strings; `thermal_conductivity` appears only in the
PIR-insulation records and `edge_type` only in the plasterboard
records, so those two are options. -/
structure Record where
  supplier : String
  price : String
  product_name : String
  category : String
  supplier_website : String
  product_image : String
  availability : String
  delivery : String
  contact : String
  rating : String
  thermal_conductivity : Option String := none
  edge_type : Option String := none
deriving DecidableEq

/-- The value attached to a knowledge-base key: a dict with a single
`"results"` entry holding the record list. -/
structure SearchData where
  results : List Record
deriving DecidableEq

/-- `ENHANCED_KNOWLEDGE_BASE["cheapest 25mm pir insulation"]`
(`src/app.py` lines 14-147): ten 25mm PIR records, prices ascending. -/
def kb_25mm_pir : SearchData :=
  { results :=
    [ { supplier := "insulation4less", price := "£13.38",
        product_name := "25mm Celotex TB4025 PIR Insulation Board 2400mm x 1200mm",
        category := "PIR Insulation",
        supplier_website := "https://insulation4less.co.uk/",
        product_image := "https://insulation4less.co.uk/cdn/shop/products/celotex-tb4000-25mm.jpg",
        availability := "In Stock", delivery := "Next Day Delivery",
        contact := "020-3582-6399", rating := "5 stars (88 reviews)",
        thermal_conductivity := some "0.022W/mK" },
      { supplier := "cutpriceinsulation", price := "£14.38",
        product_name := "25mm Ecotherm Eco-Versal PIR Insulation Board 2400mm x 1200mm",
        category := "PIR Insulation",
        supplier_website := "https://www.cutpriceinsulation.co.uk/",
        product_image := "https://www.cutpriceinsulation.co.uk/cdn/shop/products/ecotherm-25mm.jpg",
        availability := "In Stock", delivery := "Next Day Delivery",
        contact := "01480 878787", rating := "4.5 stars",
        thermal_conductivity := some "0.022W/mK" },
      { supplier := "nationalinsulationsupplies", price := "£15.20",
        product_name := "25mm Kingspan TP10 PIR Insulation Board 2400mm x 1200mm",
        category := "PIR Insulation",
        supplier_website := "https://www.nationalinsulationsupplies.co.uk/",
        product_image := "https://www.nationalinsulationsupplies.co.uk/images/kingspan-tp10-25mm.jpg",
        availability := "In Stock", delivery := "2-3 Days",
        contact := "0800 123 4567", rating := "4.3 stars",
        thermal_conductivity := some "0.022W/mK" },
      { supplier := "buildersinsulation", price := "£16.45",
        product_name := "25mm Mannok PIR Insulation Board 2400mm x 1200mm",
        category := "PIR Insulation",
        supplier_website := "https://www.buildersinsulation.co.uk/",
        product_image := "https://www.buildersinsulation.co.uk/images/mannok-25mm.jpg",
        availability := "In Stock", delivery := "Standard Delivery",
        contact := "0845 123 4567", rating := "4.2 stars",
        thermal_conductivity := some "0.022W/mK" },
      { supplier := "insulationuk", price := "£17.80",
        product_name := "25mm Recticel Instafit PIR Insulation Board 2400mm x 1200mm",
        category := "PIR Insulation",
        supplier_website := "https://www.insulationuk.co.uk/",
        product_image := "https://www.insulationuk.co.uk/images/recticel-25mm.jpg",
        availability := "In Stock", delivery := "Standard Delivery",
        contact := "0800 987 6543", rating := "4.1 stars",
        thermal_conductivity := some "0.022W/mK" },
      { supplier := "buyinsulation", price := "£18.95",
        product_name := "25mm Xtratherm Thin-R PIR Insulation Board 2400mm x 1200mm",
        category := "PIR Insulation",
        supplier_website := "https://www.buyinsulation.co.uk/",
        product_image := "https://www.buyinsulation.co.uk/images/xtratherm-25mm.jpg",
        availability := "In Stock", delivery := "2-3 Days",
        contact := "0800 456 7890", rating := "4.0 stars",
        thermal_conductivity := some "0.022W/mK" },
      { supplier := "constructionmegastore", price := "£19.50",
        product_name := "25mm IKO Enertherm PIR Insulation Board 2400mm x 1200mm",
        category := "PIR Insulation",
        supplier_website := "https://www.constructionmegastore.co.uk/",
        product_image := "https://www.constructionmegastore.co.uk/images/iko-25mm.jpg",
        availability := "In Stock", delivery := "Standard Delivery",
        contact := "0800 234 5678", rating := "3.9 stars",
        thermal_conductivity := some "0.022W/mK" },
      { supplier := "insulationsuperstore", price := "£21.25",
        product_name := "25mm Thermboard PIR Insulation Board 2400mm x 1200mm",
        category := "PIR Insulation",
        supplier_website := "https://www.insulationsuperstore.co.uk/",
        product_image := "https://www.insulationsuperstore.co.uk/images/thermboard-25mm.jpg",
        availability := "In Stock", delivery := "3-5 Days",
        contact := "0800 345 6789", rating := "3.8 stars",
        thermal_conductivity := some "0.022W/mK" },
      { supplier := "tradeinsulations", price := "£22.80",
        product_name := "25mm Unilin PIR Insulation Board 2400mm x 1200mm",
        category := "PIR Insulation",
        supplier_website := "https://www.tradeinsulations.co.uk/",
        product_image := "https://www.tradeinsulations.co.uk/images/unilin-25mm.jpg",
        availability := "In Stock", delivery := "Standard Delivery",
        contact := "0800 567 8901", rating := "3.7 stars",
        thermal_conductivity := some "0.022W/mK" },
      { supplier := "wickes", price := "£34.50",
        product_name := "25mm Kingspan TP10 PIR Insulation Board 2400mm x 1200mm",
        category := "PIR Insulation",
        supplier_website := "https://www.wickes.co.uk/",
        product_image := "https://media.wickes.co.uk/is/image/wickes/kingspan-tp10-25mm",
        availability := "In Stock", delivery := "Click & Collect 30 mins",
        contact := "0330 123 4123", rating := "4.5 stars (303 reviews)",
        thermal_conductivity := some "0.022W/mK" } ] }

/-- `ENHANCED_KNOWLEDGE_BASE["cheapest 50mm pir insulation"]`
(`src/app.py` lines 150-192): three 50mm PIR records. -/
def kb_50mm_pir : SearchData :=
  { results :=
    [ { supplier := "insulation4less", price := "£24.50",
        product_name := "50mm Celotex TB4050 PIR Insulation Board 2400mm x 1200mm",
        category := "PIR Insulation",
        supplier_website := "https://insulation4less.co.uk/",
        product_image := "https://insulation4less.co.uk/cdn/shop/products/celotex-tb4000-50mm.jpg",
        availability := "In Stock", delivery := "Next Day Delivery",
        contact := "020-3582-6399", rating := "5 stars",
        thermal_conductivity := some "0.022W/mK" },
      { supplier := "cutpriceinsulation", price := "£26.80",
        product_name := "50mm Ecotherm Eco-Versal PIR Insulation Board 2400mm x 1200mm",
        category := "PIR Insulation",
        supplier_website := "https://www.cutpriceinsulation.co.uk/",
        product_image := "https://www.cutpriceinsulation.co.uk/cdn/shop/products/ecotherm-50mm.jpg",
        availability := "In Stock", delivery := "Next Day Delivery",
        contact := "01480 878787", rating := "4.5 stars",
        thermal_conductivity := some "0.022W/mK" },
      { supplier := "wickes", price := "£39.50",
        product_name := "50mm Kingspan TP10 PIR Insulation Board 2400mm x 1200mm",
        category := "PIR Insulation",
        supplier_website := "https://www.wickes.co.uk/",
        product_image := "https://media.wickes.co.uk/is/image/wickes/kingspan-tp10-50mm",
        availability := "In Stock", delivery := "Click & Collect 30 mins",
        contact := "0330 123 4123", rating := "4.5 stars (222 reviews)",
        thermal_conductivity := some "0.022W/mK" } ] }

/-- `ENHANCED_KNOWLEDGE_BASE["plasterboard 9.5mm price"]`
(`src/app.py` lines 195-237): three plasterboard records. -/
def kb_plasterboard : SearchData :=
  { results :=
    [ { supplier := "insulation4less", price := "£8.32",
        product_name := "9.5mm Gyproc WallBoard Plasterboard 2400mm x 1200mm",
        category := "Plasterboard",
        supplier_website := "https://insulation4less.co.uk/",
        product_image := "https://insulation4less.co.uk/cdn/shop/products/gyproc-wallboard-9-5mm.jpg",
        availability := "In Stock", delivery := "Next Day Delivery",
        contact := "020-3582-6399", rating := "5 stars",
        edge_type := some "Tapered Edge" },
      { supplier := "cutpriceinsulation", price := "£8.88",
        product_name := "9.5mm British Gypsum Plasterboard 2400mm x 1200mm",
        category := "Plasterboard",
        supplier_website := "https://www.cutpriceinsulation.co.uk/",
        product_image := "https://www.cutpriceinsulation.co.uk/cdn/shop/products/british-gypsum-9-5mm.jpg",
        availability := "In Stock", delivery := "Next Day Delivery",
        contact := "01480 878787", rating := "4.5 stars",
        edge_type := some "Tapered Edge" },
      { supplier := "diy.com", price := "£9.50",
        product_name := "9.5mm Gyproc Standard Plasterboard 2400mm x 1200mm",
        category := "Plasterboard",
        supplier_website := "https://www.diy.com/",
        product_image := "https://media.diy.com/is/image/KingfisherDAM/gyproc-plasterboard-9-5mm",
        availability := "In Stock", delivery := "Click + Collect 15 mins",
        contact := "0333 014 3357", rating := "4.3 stars",
        edge_type := some "Tapered Edge" } ] }

/-- The knowledge base as an association list, in the insertion order of
the Python dict literal (`src/app.py` lines 12-238); `dict.items()`
iterates in exactly this order. -/
def ENHANCED_KNOWLEDGE_BASE : List (String × SearchData) :=
  [ ("cheapest 25mm pir insulation", kb_25mm_pir),
    ("cheapest 50mm pir insulation", kb_50mm_pir),
    ("plasterboard 9.5mm price", kb_plasterboard) ]

/-- `needle` is an initial segment of `hay` (character lists). -/
def charsStartWith : List Char → List Char → Bool
  | [], _ => true
  | _ :: _, [] => false
  | a :: as, b :: bs => a == b && charsStartWith as bs

/-- `needle` occurs contiguously somewhere in `hay` (character lists). -/
def charsContain (needle : List Char) : List Char → Bool
  | [] => needle.isEmpty
  | c :: rest => charsStartWith needle (c :: rest) || charsContain needle rest

/-- Python's substring test `needle in hay` on strings. -/
def strContains (hay needle : String) : Bool :=
  charsContain needle.toList hay.toList

/-- Python's `str.lower()`.  The queries and keys involved are ASCII, so
per-character `Char.toLower` models it faithfully. -/
def pyLower (s : String) : String := String.mk (s.data.map Char.toLower)

/-- Helper for `pySplit`: accumulates the current word (reversed) while
scanning. -/
def splitWordsAux : List Char → List Char → List String
  | [], acc => if acc.isEmpty then [] else [String.mk acc.reverse]
  | c :: rest, acc =>
    if c.isWhitespace then
      if acc.isEmpty then splitWordsAux rest []
      else String.mk acc.reverse :: splitWordsAux rest []
    else splitWordsAux rest (c :: acc)

/-- Python's `str.split()` with no argument: split on whitespace runs,
discarding empty fragments (the knowledge-base keys contain only single
spaces). -/
def pySplit (s : String) : List String := splitWordsAux s.data []

/-- Python's `str.strip()` with no argument: remove leading and trailing
whitespace. -/
def pyStrip (s : String) : String :=
  String.mk (((s.data.dropWhile Char.isWhitespace).reverse.dropWhile
    Char.isWhitespace).reverse)

/-- `re.search(r'(\d+)mm', s)` (`src/app.py` line 252): the leftmost
maximal digit run that is immediately followed by `"mm"`, returning the
captured digits.  (Greedy `\d+` cannot backtrack usefully here because a
digit is never `'m'`, so the match at a position is exactly: maximal
digit run then `"mm"`.) -/
def findThickness : List Char → Option (List Char)
  | [] => none
  | c :: rest =>
    let run := List.takeWhile Char.isDigit (c :: rest)
    if c.isDigit && charsStartWith ['m', 'm'] (List.drop run.length (c :: rest)) then
      some run
    else
      findThickness rest

/-- `any(word in query_lower for word in words)`. -/
def hasAnyWord (query_lower : String) (words : List String) : Bool :=
  words.any (fun w => strContains query_lower w)

/-- `find_best_match(query)` (`src/app.py` lines 240-267).  The for-loop
over `ENHANCED_KNOWLEDGE_BASE.items()` is unrolled in the dict's
insertion order; each key is split on spaces exactly as `key.split()`
does for these single-space-separated keys. -/
def find_best_match (query : String) : SearchData :=
  let query_lower := pyLower query
  -- Direct keyword matching (lines 245-247), dict order.
  if hasAnyWord query_lower (pySplit "cheapest 25mm pir insulation") then
    kb_25mm_pir
  else if hasAnyWord query_lower (pySplit "cheapest 50mm pir insulation") then
    kb_50mm_pir
  else if hasAnyWord query_lower (pySplit "plasterboard 9.5mm price") then
    kb_plasterboard
  -- Fuzzy matching for PIR insulation (lines 250-260).
  else if hasAnyWord query_lower ["pir", "insulation", "thermal", "celotex", "kingspan"] then
    match findThickness query_lower.toList with
    | some t =>
      if t = ['2', '5'] then kb_25mm_pir
      else if t = ['5', '0'] then kb_50mm_pir
      else kb_25mm_pir
    | none => kb_25mm_pir
  -- Fuzzy matching for plasterboard (lines 263-264).
  else if hasAnyWord query_lower ["plasterboard", "plaster", "drywall", "gypsum"] then
    kb_plasterboard
  -- Default fallback (line 267).
  else kb_25mm_pir

/-- The `/api/search` handler (`src/app.py` lines 290-321), restricted
to its record-producing behaviour.  `rawQuery = none` models a JSON body
without a `"query"` key (`data.get('query', '')`); the handler strips
the query, answers `("Query is required", 400)` when the stripped query
is empty, and otherwise returns `find_best_match(query)["results"]`.
The `ai_summary` string and metadata are presentation only and carry no
record data; the generic `except` branch (HTTP 500) is unreachable for
string queries since every operation used is total. -/
def search (rawQuery : Option String) : Except (String × Nat) (List Record) :=
  let query := pyStrip (rawQuery.getD "")
  if query = "" then Except.error ("Query is required", 400)
  else Except.ok (find_best_match query).results

/-- Numeric value, in pence, of a display price of the form `£p.ff`
(pounds digits, a dot, exactly two fraction digits) — the format of
every price in the knowledge base.  Used to state the spec's
"numeric price" ordering; `none` for any other shape. -/
def parsePricePence (s : String) : Option Nat :=
  let digitsVal : List Char → Option Nat := fun cs =>
    if cs ≠ [] ∧ cs.all Char.isDigit then
      some (cs.foldl (fun n c => 10 * n + (c.toNat - 48)) 0)
    else none
  match s.toList with
  | '£' :: rest =>
    let intPart := rest.takeWhile (fun c => c ≠ '.')
    let fracPart := rest.drop (intPart.length + 1)
    match digitsVal intPart, digitsVal fracPart with
    | some p, some f =>
      if (rest.drop intPart.length).head? = some '.' ∧ fracPart.length = 2 then
        some (100 * p + f)
      else none
    | _, _ => none
  | _ => none

/-- "No higher numeric price before a lower one": whenever both display
prices parse, the earlier record's price is at most the later one's. -/
def priceOrdered (a b : Record) : Bool :=
  match parsePricePence a.price, parsePricePence b.price with
  | some x, some y => x ≤ y
  | _, _ => true

/-- The spec's deduplication key: canonical supplier together with the
lower-cased first 50 characters of the product name (§3 and §4.6 of the
spec). -/
def dedupKey (r : Record) : String × String :=
  (r.supplier, String.mk ((pyLower r.product_name).data.take 50))

/-- Every invocation of `find_best_match` returns one of the three
knowledge-base entries. -/
theorem find_best_match_cases (q : String) :
    find_best_match q = kb_25mm_pir ∨ find_best_match q = kb_50mm_pir ∨
      find_best_match q = kb_plasterboard := by
  unfold find_best_match
  by_cases h1 : hasAnyWord (pyLower q) (pySplit "cheapest 25mm pir insulation") = true
  · simp [h1]
  rw [Bool.not_eq_true] at h1
  by_cases h2 : hasAnyWord (pyLower q) (pySplit "cheapest 50mm pir insulation") = true
  · simp [h1, h2]
  rw [Bool.not_eq_true] at h2
  by_cases h3 : hasAnyWord (pyLower q) (pySplit "plasterboard 9.5mm price") = true
  · simp [h1, h2, h3]
  rw [Bool.not_eq_true] at h3
  by_cases h4 : hasAnyWord (pyLower q) ["pir", "insulation", "thermal", "celotex", "kingspan"] = true
  · rcases ht : findThickness (pyLower q).data with _ | t
    · simp [h1, h2, h3, h4, ht]
    · by_cases h5 : t = ['2', '5']
      · simp [h1, h2, h3, h4, ht, h5]
      by_cases h6 : t = ['5', '0']
      · simp [h1, h2, h3, h4, ht, h5, h6]
      · simp [h1, h2, h3, h4, ht, h5, h6]
  rw [Bool.not_eq_true] at h4
  by_cases h7 : hasAnyWord (pyLower q) ["plasterboard", "plaster", "drywall", "gypsum"] = true
  · simp [h1, h2, h3, h4, h7]
  · rw [Bool.not_eq_true] at h7
    simp [h1, h2, h3, h4, h7]

/-- Each knowledge-base entry has a non-empty result list, so
`find_best_match` never yields an empty list. -/
theorem fbm_results_ne_nil (q : String) : (find_best_match q).results ≠ [] := by
  rcases find_best_match_cases q with h | h | h <;> rw [h] <;> simp [kb_25mm_pir, kb_50mm_pir, kb_plasterboard]

/-- C1: the claim says the query "50mm PIR insulation" ranks a 50mm
product above any 25mm product.  In fact the handler returns the ten
25mm records of the first knowledge-base entry (its key words "pir" and
"insulation" match before thickness extraction runs): every returned
product name states 25mm and none states 50mm, so the claim fails and
the thickness-extraction branch of `find_best_match` is bypassed. -/
theorem c1_fifty_query_gets_25mm_results :
    search (some "50mm PIR insulation") = Except.ok kb_25mm_pir.results ∧
    kb_25mm_pir.results.all
      (fun r => strContains r.product_name "25mm" && !(strContains r.product_name "50mm")) = true :=
  ⟨rfl, by decide⟩

/-- C2: `find_best_match` always yields a non-empty result list, and
whenever the `/api/search` handler returns a result list it is
non-empty. -/
theorem c2_results_nonempty :
    (∀ q : String, (find_best_match q).results ≠ []) ∧
    (∀ (rawQuery : Option String) (rs : List Record),
      search rawQuery = Except.ok rs → rs ≠ []) := by
  refine ⟨fbm_results_ne_nil, ?_⟩
  intro raw rs h
  unfold search at h
  simp only [] at h
  split at h
  · exact Except.noConfusion h
  · injection h with h2
    rw [← h2]
    exact fbm_results_ne_nil _

/-- C2 witness: the handler output for the query "pir" is non-empty. -/
theorem c2_results_nonempty_witness : kb_25mm_pir.results ≠ [] :=
  c2_results_nonempty.2 (some "pir") kb_25mm_pir.results rfl

/-- C3 counterexample: the single-space query is a non-empty string,
yet it strips to the empty string and takes the error branch, refuting
"for every non-empty query it does not take this error branch". -/
theorem c3_blank_query_counterexample :
    (" " : String) ≠ "" ∧ search (some " ") = Except.error ("Query is required", 400) :=
  ⟨by decide, rfl⟩

/-- C3 (amended): the handler answers ("Query is required", 400) exactly
when the query, after stripping whitespace, is empty (a missing query is
treated as the empty string); every query that is non-empty after
stripping gets the matched record list instead. -/
theorem c3_error_iff_stripped_empty (rawQuery : Option String) :
    (search rawQuery = Except.error ("Query is required", 400) ↔
      pyStrip (rawQuery.getD "") = "") ∧
    (pyStrip (rawQuery.getD "") ≠ "" →
      search rawQuery =
        Except.ok (find_best_match (pyStrip (rawQuery.getD ""))).results) := by
  unfold search
  simp only []
  constructor
  · split
    · rename_i hq
      simp [hq]
    · rename_i hq
      simp [hq]
  · intro hq
    simp [hq]

/-- C3 witness: instantiation of the amended claim at the single-space
query and at the query "pir". -/
theorem c3_error_iff_stripped_empty_witness :
    search (some " ") = Except.error ("Query is required", 400) ∧
    search (some "pir") = Except.ok (find_best_match "pir").results :=
  ⟨(c3_error_iff_stripped_empty (some " ")).1.mpr (by decide),
   (c3_error_iff_stripped_empty (some "pir")).2 (by decide)⟩

/-- C4 counterexample: the query "cheapest 25mm pir insulation" makes
the handler return all ten records of the first knowledge-base entry —
more than the claimed cap of 5; no truncation exists in the code. -/
theorem c4_more_than_five_counterexample :
    search (some "cheapest 25mm pir insulation") = Except.ok kb_25mm_pir.results ∧
    kb_25mm_pir.results.length = 10 ∧ ¬ kb_25mm_pir.results.length ≤ 5 :=
  ⟨rfl, rfl, by decide⟩

/-- C4 (amended): every result list the handler returns has at most 10
records — the size of the largest knowledge-base list; the code applies
no truncation at all, in particular none to 5. -/
theorem c4_at_most_ten (rawQuery : Option String) (rs : List Record)
    (h : search rawQuery = Except.ok rs) : rs.length ≤ 10 := by
  unfold search at h
  simp only [] at h
  split at h
  · exact Except.noConfusion h
  · injection h with h2
    rw [← h2]
    rcases find_best_match_cases (pyStrip (rawQuery.getD "")) with hc | hc | hc <;>
      rw [hc] <;> decide

/-- C4 witness: the amended bound instantiated at the query "pir". -/
theorem c4_at_most_ten_witness : kb_25mm_pir.results.length ≤ 10 :=
  c4_at_most_ten (some "pir") kb_25mm_pir.results rfl

/-- C5: every result list the handler returns is sorted by ascending
numeric price: for any two records whose display prices parse, the
earlier one is at most the later one. -/
theorem c5_price_ascending (rawQuery : Option String) (rs : List Record)
    (h : search rawQuery = Except.ok rs) :
    List.Pairwise (fun a b => priceOrdered a b = true) rs := by
  unfold search at h
  simp only [] at h
  split at h
  · exact Except.noConfusion h
  · injection h with h2
    rw [← h2]
    rcases find_best_match_cases (pyStrip (rawQuery.getD "")) with hc | hc | hc <;>
      rw [hc] <;> decide

/-- C5 witness: price ordering of the 50mm list returned for the query
"celotex 50mm". -/
theorem c5_price_ascending_witness :
    List.Pairwise (fun a b => priceOrdered a b = true) kb_50mm_pir.results :=
  c5_price_ascending (some "celotex 50mm") kb_50mm_pir.results rfl

/-- C6: the handler is deterministic — it is a pure function of the
query string (the knowledge base is immutable and no clock or
randomness is consulted), so equal queries yield equal responses. -/
theorem c6_deterministic (r1 r2 : Option String) (h : r1 = r2) :
    search r1 = search r2 := by rw [h]

/-- C6 witness: determinism instantiated at the query "pir". -/
theorem c6_deterministic_witness : search (some "pir") = search (some "pir") :=
  c6_deterministic (some "pir") (some "pir") rfl

/-- C7: every record in every result list the handler can return has a
non-empty supplier and a non-empty product name. -/
theorem c7_mandatory_fields (rawQuery : Option String) (rs : List Record)
    (h : search rawQuery = Except.ok rs) :
    rs.all (fun r => !(r.supplier == "") && !(r.product_name == "")) = true := by
  unfold search at h
  simp only [] at h
  split at h
  · exact Except.noConfusion h
  · injection h with h2
    rw [← h2]
    rcases find_best_match_cases (pyStrip (rawQuery.getD "")) with hc | hc | hc <;>
      rw [hc] <;> decide

/-- C7 witness: mandatory fields of the plasterboard list returned for
the query "drywall". -/
theorem c7_mandatory_fields_witness :
    kb_plasterboard.results.all
      (fun r => !(r.supplier == "") && !(r.product_name == "")) = true :=
  c7_mandatory_fields (some "drywall") kb_plasterboard.results rfl

/-- C8: in every result list the handler can return, deduplication keys
(supplier, lower-cased 50-character prefix of the product name) are
pairwise distinct — at most one record per key; consequently the
"cheaper candidate wins" tie-break is never exercised on an output. -/
theorem c8_dedup_keys_distinct (rawQuery : Option String) (rs : List Record)
    (h : search rawQuery = Except.ok rs) :
    List.Pairwise (fun a b => dedupKey a ≠ dedupKey b) rs := by
  unfold search at h
  simp only [] at h
  split at h
  · exact Except.noConfusion h
  · injection h with h2
    rw [← h2]
    rcases find_best_match_cases (pyStrip (rawQuery.getD "")) with hc | hc | hc <;>
      rw [hc] <;> decide

/-- C8 witness: key distinctness of the 50mm list returned for the
query "50mm celotex board". -/
theorem c8_dedup_keys_distinct_witness :
    List.Pairwise (fun a b => dedupKey a ≠ dedupKey b) kb_50mm_pir.results :=
  c8_dedup_keys_distinct (some "50mm celotex board") kb_50mm_pir.results rfl

/-- C9: any query whose lower-cased form contains "cheapest", "25mm",
"pir" or "insulation" as a substring is answered with the 25mm PIR
entry — the first knowledge-base key wins by substring containment
before any thickness extraction or fuzzy matching runs. -/
theorem c9_first_key_shadows (q : String)
    (h : strContains (pyLower q) "cheapest" = true ∨
         strContains (pyLower q) "25mm" = true ∨
         strContains (pyLower q) "pir" = true ∨
         strContains (pyLower q) "insulation" = true) :
    find_best_match q = kb_25mm_pir := by
  have hsplit : pySplit "cheapest 25mm pir insulation" =
      ["cheapest", "25mm", "pir", "insulation"] := rfl
  have hc : hasAnyWord (pyLower q) (pySplit "cheapest 25mm pir insulation") = true := by
    rw [hsplit]
    unfold hasAnyWord
    rcases h with h | h | h | h <;> simp [h]
  unfold find_best_match
  simp [hc]

/-- C9 witness: the query "cheapest plasterboard" contains "cheapest"
and is answered with the 25mm PIR entry, not the plasterboard entry. -/
theorem c9_first_key_shadows_witness :
    find_best_match "cheapest plasterboard" = kb_25mm_pir :=
  c9_first_key_shadows "cheapest plasterboard" (Or.inl (by decide))

/-- C10: `find_best_match` is total — every query yields exactly one of
the three knowledge-base entries (each with a non-empty list, never
empty or null), and any query matching none of the keyword sets falls
back to the 25mm PIR entry. -/
theorem c10_total_fallback :
    (∀ q : String,
      (find_best_match q = kb_25mm_pir ∨ find_best_match q = kb_50mm_pir ∨
        find_best_match q = kb_plasterboard) ∧ (find_best_match q).results ≠ []) ∧
    (∀ q : String,
      hasAnyWord (pyLower q) (pySplit "cheapest 25mm pir insulation") = false →
      hasAnyWord (pyLower q) (pySplit "cheapest 50mm pir insulation") = false →
      hasAnyWord (pyLower q) (pySplit "plasterboard 9.5mm price") = false →
      hasAnyWord (pyLower q) ["pir", "insulation", "thermal", "celotex", "kingspan"] = false →
      hasAnyWord (pyLower q) ["plasterboard", "plaster", "drywall", "gypsum"] = false →
      find_best_match q = kb_25mm_pir) := by
  constructor
  · intro q
    exact ⟨find_best_match_cases q, fbm_results_ne_nil q⟩
  · intro q h1 h2 h3 h4 h5
    unfold find_best_match
    simp [h1, h2, h3, h4, h5]

/-- C10 witness: the keyword-free query "zzz" falls back to the 25mm
PIR entry. -/
theorem c10_total_fallback_witness : find_best_match "zzz" = kb_25mm_pir :=
  c10_total_fallback.2 "zzz" (by decide) (by decide) (by decide) (by decide) (by decide)
